import Mathlib

/-!
# Smart Home Security System: alert arbitration and dispatch

A shallow embedding of the Arduino sketch `src/src.cpp`.

* Global variables (`config.lastAlertTime`, `currentState`) and the devices the
  sketch drives (LCD rows, the three RGB pins) are fields of `State`.
* Every call the sketch makes to the Arduino core or the LCD library is also
  appended, in program order, to the trace `State.out`, so that "what the code
  did" can be read back command by command.
* Values the sketch obtains from the outside world (`analogRead`, the distance
  computed from `pulseIn`, and every value returned by `millis()`) are explicit
  inputs.
* `unsigned long` is 32 bits wide on the target; the one subtraction performed
  on it is modelled on `Nat` with an explicit reduction modulo `2^32`.
-/

namespace SmartHome

/-! ## Data model -/

/-- Pins named by the sketch (lines 8-17). -/
inductive Pin
  | SOUND_PIN | WATER_PIN | LDR_PIN | FLAME_PIN | BUZZER_PIN
  | TRIG_PIN | ECHO_PIN | RED_PIN | GREEN_PIN | BLUE_PIN
  deriving DecidableEq, Repr

/-- Direction argument of `pinMode`. -/
inductive PinDirection
  | INPUT | OUTPUT
  deriving DecidableEq, Repr

/-- Alert types, `enum class AlertType` (lines 39-46). -/
inductive AlertType
  | None | Sound | Fire | Water | Tamper | Proximity
  deriving DecidableEq, Repr

/-- Alert severities, `enum class AlertSeverity` (lines 48-52). -/
inductive AlertSeverity
  | Normal | Moderate | Critical
  deriving DecidableEq, Repr

/-- System phases, `enum class SystemState` (lines 55-60). -/
inductive SystemState
  | Startup | SelfTest | Normal | Alert
  deriving DecidableEq, Repr

/-- `Config::soundThreshold` (line 27). -/
def soundThreshold : Nat := 400

/-- `Config::lightThreshold` (line 28). -/
def lightThreshold : Nat := 500

/-- `Config::distanceThreshold` (line 29). -/
def distanceThreshold : Nat := 50

/-- `Config::waterThreshold` (line 30). -/
def waterThreshold : Nat := 500

/-- `Config::flameThreshold` (line 31). -/
def flameThreshold : Nat := 250

/-- `Config::alertCooldown` (line 33), in milliseconds. -/
def alertCooldown : Nat := 5000

/-- Number of values of an `unsigned long` on the target: `2^32`. -/
def ULONG_SPAN : Nat := 4294967296

/-- Subtraction of two `unsigned long` values, as the target computes it:
the difference modulo `2^32`. -/
def ulSub (a b : Nat) : Nat :=
  (a % ULONG_SPAN + ULONG_SPAN - b % ULONG_SPAN) % ULONG_SPAN

/-- One call made by the sketch to the Arduino core, the serial port or the
LCD library. -/
inductive Event
  | serialBegin (baud : Nat)
  | lcdBegin (cols rows : Nat)
  | pinMode (pin : Pin) (dir : PinDirection)
  | serialPrint (text : String)
  | serialPrintln (text : String)
  | lcdClear
  | lcdSetCursor (col row : Nat)
  | lcdPrint (text : String)
  | digitalWrite (pin : Pin) (level : Bool)
  | tone (pin : Pin) (frequency duration : Nat)
  | noTone (pin : Pin)
  | delay (ms : Nat)
  | delayMicroseconds (us : Nat)
  | pulseIn (pin : Pin) (level : Bool)
  deriving DecidableEq, Repr

/-- The mutable world of the sketch: its two global variables, the state of
the devices it drives, and the trace of every call it has made. -/
structure State where
  /-- The global `config.lastAlertTime` (line 32). -/
  lastAlertTime : Nat
  /-- The global `currentState` (line 62). -/
  currentState : SystemState
  /-- Text shown on the first LCD row. -/
  lcdRow0 : String
  /-- Text shown on the second LCD row. -/
  lcdRow1 : String
  /-- Level of `RED_PIN`. -/
  red : Bool
  /-- Level of `GREEN_PIN`. -/
  green : Bool
  /-- Level of `BLUE_PIN`. -/
  blue : Bool
  /-- Every library call made so far, oldest first. -/
  out : List Event
  deriving DecidableEq, Repr

/-- The world at power-up: globals at their initialisers (lines 32 and 62),
blank display, pins low, nothing emitted yet. -/
def powerOn : State :=
  { lastAlertTime := 0, currentState := SystemState.Startup, lcdRow0 := "", lcdRow1 := "",
    red := false, green := false, blue := false, out := [] }

/-! ## Library calls -/

/-- Record one library call in the trace. -/
def emit (e : Event) (s : State) : State :=
  { s with out := s.out ++ [e] }

/-- The call `digitalWrite(pin, level)`: sets the pin; the three indicator pins are
mirrored in the state. -/
def digitalWrite (pin : Pin) (level : Bool) (s : State) : State :=
  let s := emit (Event.digitalWrite pin level) s
  match pin with
  | Pin.RED_PIN => { s with red := level }
  | Pin.GREEN_PIN => { s with green := level }
  | Pin.BLUE_PIN => { s with blue := level }
  | _ => s

/-- The call `delay(ms)`: the only call of the sketch that blocks for milliseconds. -/
def delay (ms : Nat) (s : State) : State :=
  emit (Event.delay ms) s

/-- The call `tone(pin, frequency, duration)`: starts a tone and returns at once. -/
def tone (pin : Pin) (frequency duration : Nat) (s : State) : State :=
  emit (Event.tone pin frequency duration) s

/-- The call `noTone(pin)`. -/
def noTone (pin : Pin) (s : State) : State :=
  emit (Event.noTone pin) s

/-- The call `lcd.clear()`: blanks both rows. -/
def lcdClear (s : State) : State :=
  { emit Event.lcdClear s with lcdRow0 := "", lcdRow1 := "" }

/-- The pair `lcd.setCursor(0, row); lcd.print(text)` on a cleared display:
the row shows `text`. -/
def lcdPrintAt (row : Nat) (text : String) (s : State) : State :=
  let s := emit (Event.lcdPrint text) (emit (Event.lcdSetCursor 0 row) s)
  if row = 0 then { s with lcdRow0 := text } else { s with lcdRow1 := text }

/-! ## The sketch -/

/-- `updateLCD` (lines 222-230). -/
def updateLCD (line1 line2 : String) (s : State) : State :=
  let s := lcdClear s
  let s := lcdPrintAt 0 line1 s
  if line2 ≠ "" then lcdPrintAt 1 line2 s else s

/-- `setRGBColor` (lines 233-237). -/
def setRGBColor (redState greenState blueState : Bool) (s : State) : State :=
  let s := digitalWrite Pin.RED_PIN redState s
  let s := digitalWrite Pin.GREEN_PIN greenState s
  digitalWrite Pin.BLUE_PIN blueState s

/-- `getAlertTypeName` (lines 171-180). -/
def getAlertTypeName : AlertType → String
  | AlertType.Sound => "Sound Sensor"
  | AlertType.Fire => "Fire Sensor"
  | AlertType.Water => "Water Sensor"
  | AlertType.Tamper => "Tamper Sensor"
  | AlertType.Proximity => "Proximity Sensor"
  | _ => "Unknown Sensor"

/-- The conditional expression of lines 190-191 that names a severity. -/
def severityLabel (severity : AlertSeverity) : String :=
  if severity = AlertSeverity.Critical then "CRITICAL"
  else if severity = AlertSeverity.Moderate then "MODERATE" else "NORMAL"

/-- `sendSerialData` (lines 183-193). -/
def sendSerialData (sensor alertMessage : String) (severity : AlertSeverity) (s : State) :
    State :=
  let s := emit (Event.serialPrintln "----------------------------------------") s
  let s := emit (Event.serialPrint "Sensor: ") s
  let s := emit (Event.serialPrintln sensor) s
  let s := emit (Event.serialPrint "Alert: ") s
  let s := emit (Event.serialPrintln alertMessage) s
  let s := emit (Event.serialPrint "Severity: ") s
  let s := emit (Event.serialPrintln (severityLabel severity)) s
  emit (Event.serialPrintln "----------------------------------------") s

/-- The body of the `for` loop of `activateBuzzer` (lines 161-164), run `n` times. -/
def beepPattern : Nat → State → State
  | 0, s => s
  | n + 1, s =>
    let s := tone Pin.BUZZER_PIN 2000 200 s
    let s := delay 300 s
    let s := tone Pin.BUZZER_PIN 1500 200 s
    let s := delay 300 s
    beepPattern n s

/-- `activateBuzzer` (lines 157-168); the `for` loop runs for `i = 0, 1, 2`. -/
def activateBuzzer (severity : AlertSeverity) (s : State) : State :=
  let s := if severity = AlertSeverity.Critical then beepPattern 3 s else s
  noTone Pin.BUZZER_PIN s

/-- `handleAlert` (lines 135-154). `millis` is the value returned by the call
`millis()` on line 136. -/
def handleAlert (type : AlertType) (message : String) (severity : AlertSeverity)
    (millis : Nat) (s : State) : State :=
  let s := { s with lastAlertTime := millis }
  let s := sendSerialData (getAlertTypeName type) message severity s
  if severity = AlertSeverity.Critical then
    let s := { s with currentState := SystemState.Alert }
    let s := updateLCD "! ALERT !" message s
    let s := setRGBColor true false false s
    let s := activateBuzzer severity s
    let s := delay 2000 s
    let s := { s with currentState := SystemState.Normal }
    let s := updateLCD "System Ready" "Monitoring..." s
    setRGBColor false true false s
  else s

/-- `performSelfTest` (lines 196-219). -/
def performSelfTest (s : State) : State :=
  let s := setRGBColor true false false s
  let s := delay 500 s
  let s := setRGBColor false true false s
  let s := delay 500 s
  let s := setRGBColor false false true s
  let s := delay 500 s
  let s := setRGBColor false false false s
  let s := tone Pin.BUZZER_PIN 1000 200 s
  let s := delay 300 s
  let s := emit (Event.serialPrintln "Self-Test Results:") s
  let s := emit (Event.serialPrintln "----------------------------------------") s
  let s := emit (Event.serialPrintln "Sound Sensor: OK") s
  let s := emit (Event.serialPrintln "Flame Sensor: OK") s
  let s := emit (Event.serialPrintln "Water Sensor: OK") s
  let s := emit (Event.serialPrintln "Light Sensor: OK") s
  let s := emit (Event.serialPrintln "Ultrasonic Sensor: OK") s
  emit (Event.serialPrintln "----------------------------------------") s

/-- `setup` (lines 76-100). -/
def setup (s : State) : State :=
  let s := emit (Event.serialBegin 9600) s
  let s := emit (Event.lcdBegin 16 2) s
  let s := emit (Event.pinMode Pin.SOUND_PIN PinDirection.INPUT) s
  let s := emit (Event.pinMode Pin.FLAME_PIN PinDirection.INPUT) s
  let s := emit (Event.pinMode Pin.WATER_PIN PinDirection.INPUT) s
  let s := emit (Event.pinMode Pin.LDR_PIN PinDirection.INPUT) s
  let s := emit (Event.pinMode Pin.BUZZER_PIN PinDirection.OUTPUT) s
  let s := emit (Event.pinMode Pin.TRIG_PIN PinDirection.OUTPUT) s
  let s := emit (Event.pinMode Pin.ECHO_PIN PinDirection.INPUT) s
  let s := emit (Event.pinMode Pin.RED_PIN PinDirection.OUTPUT) s
  let s := emit (Event.pinMode Pin.GREEN_PIN PinDirection.OUTPUT) s
  let s := emit (Event.pinMode Pin.BLUE_PIN PinDirection.OUTPUT) s
  let s := updateLCD "System Starting" "Self-Test..." s
  let s := performSelfTest s
  let s := { s with currentState := SystemState.Normal }
  let s := updateLCD "System Ready" "Monitoring..." s
  setRGBColor false true false s

/-- `readUltrasonicDistance` (lines 240-247). `echoCm` is the value the function
returns: the echo time measured by `pulseIn`, converted to centimetres and to
`uint16_t`; the measurement is an input of the embedding. -/
def readUltrasonicDistance (echoCm : Nat) (s : State) : Nat × State :=
  let s := digitalWrite Pin.TRIG_PIN false s
  let s := emit (Event.delayMicroseconds 2) s
  let s := digitalWrite Pin.TRIG_PIN true s
  let s := emit (Event.delayMicroseconds 10) s
  let s := digitalWrite Pin.TRIG_PIN false s
  let s := emit (Event.pulseIn Pin.ECHO_PIN true) s
  (echoCm, s)

/-- What one iteration of `loop` obtains from the outside world. -/
structure LoopInput where
  /-- Result of `analogRead(SOUND_PIN)` (line 104). -/
  soundValue : Nat
  /-- Result of `analogRead(FLAME_PIN)` (line 105). -/
  flameValue : Nat
  /-- Result of `analogRead(WATER_PIN)` (line 106). -/
  waterValue : Nat
  /-- Result of `analogRead(LDR_PIN)` (line 107). -/
  lightValue : Nat
  /-- Result of `readUltrasonicDistance()` (line 108). -/
  distance : Nat
  /-- Value returned by `millis()` on line 111. -/
  millisAtCheck : Nat
  /-- Value returned by `millis()` on line 136, should `handleAlert` be called. -/
  millisAtAlert : Nat
  deriving DecidableEq, Repr

/-- `loop` (lines 102-132). -/
def loop (i : LoopInput) (s : State) : State :=
  let soundValue := i.soundValue
  let flameValue := i.flameValue
  let waterValue := i.waterValue
  let lightValue := i.lightValue
  let (distance, s) := readUltrasonicDistance i.distance s
  let s :=
    if ulSub i.millisAtCheck s.lastAlertTime ≥ alertCooldown then
      if flameValue < flameThreshold then
        handleAlert AlertType.Fire "FIRE DETECTED" AlertSeverity.Critical i.millisAtAlert s
      else if distance < distanceThreshold then
        handleAlert AlertType.Proximity "PROXIMITY ALERT" AlertSeverity.Critical i.millisAtAlert s
      else if soundValue > soundThreshold then
        handleAlert AlertType.Sound "Sound Alert" AlertSeverity.Moderate i.millisAtAlert s
      else if waterValue < waterThreshold then
        handleAlert AlertType.Water "Water Detected" AlertSeverity.Critical i.millisAtAlert s
      else if lightValue < lightThreshold then
        handleAlert AlertType.Tamper "Tamper Alert" AlertSeverity.Moderate i.millisAtAlert s
      else s
    else s
  delay 100 s

/-! ## Observations on the sketch -/

/-- The arguments of one call `handleAlert(type, message, severity)`. -/
structure AlertDecision where
  /-- First argument of the call. -/
  type : AlertType
  /-- Second argument of the call. -/
  message : String
  /-- Third argument of the call. -/
  severity : AlertSeverity
  deriving DecidableEq, Repr

/-- The alert evaluation of one iteration: the condition chain of `loop`
(lines 111-129) with each call `handleAlert(...)` replaced by its arguments,
and `none` where `loop` makes no call. `lastAlertTime` is the value of
`config.lastAlertTime` when line 111 runs. -/
def loopDecision (i : LoopInput) (lastAlertTime : Nat) : Option AlertDecision :=
  if ulSub i.millisAtCheck lastAlertTime ≥ alertCooldown then
    if i.flameValue < flameThreshold then
      some ⟨AlertType.Fire, "FIRE DETECTED", AlertSeverity.Critical⟩
    else if i.distance < distanceThreshold then
      some ⟨AlertType.Proximity, "PROXIMITY ALERT", AlertSeverity.Critical⟩
    else if i.soundValue > soundThreshold then
      some ⟨AlertType.Sound, "Sound Alert", AlertSeverity.Moderate⟩
    else if i.waterValue < waterThreshold then
      some ⟨AlertType.Water, "Water Detected", AlertSeverity.Critical⟩
    else if i.lightValue < lightThreshold then
      some ⟨AlertType.Tamper, "Tamper Alert", AlertSeverity.Moderate⟩
    else none
  else none

/-- Carrying out a decision: the call `handleAlert` for `some`, nothing for `none`. -/
def dispatch (d : Option AlertDecision) (millis : Nat) (s : State) : State :=
  match d with
  | some d => handleAlert d.type d.message d.severity millis s
  | none => s

/-- An iteration of `loop` in which no alert is raised: the distance probe is
triggered and the iteration sleeps its 100 ms. -/
def idleIteration (i : LoopInput) (s : State) : State :=
  delay 100 (readUltrasonicDistance i.distance s).2

/-- The library calls made between two states of one execution. -/
def newEvents (before after : State) : List Event :=
  after.out.drop before.out.length

/-- The lines written to the serial port by a sequence of calls: `print` extends
the current line, `println` extends and ends it. -/
def logLinesFrom : String → List Event → List String
  | _, [] => []
  | cur, Event.serialPrint t :: es => logLinesFrom (cur ++ t) es
  | cur, Event.serialPrintln t :: es => (cur ++ t) :: logLinesFrom "" es
  | cur, _ :: es => logLinesFrom cur es

/-- The lines written to the serial port, starting at the beginning of a line. -/
def logLines (es : List Event) : List String :=
  logLinesFrom "" es

/-- Milliseconds the sketch spends blocked in `delay` over a sequence of calls. -/
def blockedMs : List Event → Nat
  | [] => 0
  | Event.delay ms :: es => ms + blockedMs es
  | _ :: es => blockedMs es

/-- Whether a call addresses the buzzer (`tone` or `noTone`). -/
def Event.isBuzzer : Event → Bool
  | Event.tone _ _ _ => true
  | Event.noTone _ => true
  | _ => false

/-- Whether a call addresses the display. -/
def Event.isDisplay : Event → Bool
  | Event.lcdBegin _ _ => true
  | Event.lcdClear => true
  | Event.lcdSetCursor _ _ => true
  | Event.lcdPrint _ => true
  | _ => false

/-- The most recent buzzer command in a sequence of calls, if any. -/
def lastBuzzerCommand (es : List Event) : Option Event :=
  (es.filter Event.isBuzzer).getLast?

/-- The serial record that `sendSerialData` emits, call by call. -/
def alertRecord (type : AlertType) (message : String) (severity : AlertSeverity) : List Event :=
  [ Event.serialPrintln "----------------------------------------",
    Event.serialPrint "Sensor: ", Event.serialPrintln (getAlertTypeName type),
    Event.serialPrint "Alert: ", Event.serialPrintln message,
    Event.serialPrint "Severity: ", Event.serialPrintln (severityLabel severity),
    Event.serialPrintln "----------------------------------------" ]

/-- Repeated execution of `loop`, one input per iteration. -/
def runLoop : List LoopInput → State → State
  | [], s => s
  | i :: is, s => runLoop is (loop i s)

/-- The values returned by `millis()` during a run, in call order: one per
iteration on line 111, and one more on line 136 when `handleAlert` is called. -/
def clockReads : List LoopInput → State → List Nat
  | [], _ => []
  | i :: is, s =>
    (i.millisAtCheck ::
      (if (loopDecision i s.lastAlertTime).isSome then [i.millisAtAlert] else []))
      ++ clockReads is (loop i s)

/-- The times recorded by the dispatched alerts of a run, in order. -/
def alertTimes : List LoopInput → State → List Nat
  | [], _ => []
  | i :: is, s =>
    (if (loopDecision i s.lastAlertTime).isSome then [i.millisAtAlert] else [])
      ++ alertTimes is (loop i s)

/-- The input the sketch receives when the clock fields of `i` hold the true
number of milliseconds since start: `millis()` returns that number modulo
`2^32`. -/
def LoopInput.wrapped (i : LoopInput) : LoopInput :=
  { i with millisAtCheck := i.millisAtCheck % ULONG_SPAN,
           millisAtAlert := i.millisAtAlert % ULONG_SPAN }

/-- The true times at which `millis()` is called during a run whose inputs
carry true times; the sketch itself runs on the wrapped inputs. -/
def trueClockReads : List LoopInput → State → List Nat
  | [], _ => []
  | i :: is, s =>
    (i.millisAtCheck ::
      (if (loopDecision i.wrapped s.lastAlertTime).isSome then [i.millisAtAlert] else []))
      ++ trueClockReads is (loop i.wrapped s)

/-- The true times of the dispatched alerts of a run whose inputs carry true
times; the sketch itself runs on the wrapped inputs. -/
def trueAlertTimes : List LoopInput → State → List Nat
  | [], _ => []
  | i :: is, s =>
    (if (loopDecision i.wrapped s.lastAlertTime).isSome then [i.millisAtAlert] else [])
      ++ trueAlertTimes is (loop i.wrapped s)

/-! ## Reference policy, as the specification words it -/

/-- The sensor snapshot of the specification. -/
structure SensorSnapshot where
  /-- Sound level. -/
  sound : Nat
  /-- Flame sensor reading. -/
  flame : Nat
  /-- Water sensor reading. -/
  water : Nat
  /-- Light sensor reading. -/
  light : Nat
  /-- Distance in centimetres. -/
  distanceCm : Nat
  deriving DecidableEq, Repr

/-- The snapshot captured by one iteration of `loop`. -/
def LoopInput.snapshot (i : LoopInput) : SensorSnapshot :=
  { sound := i.soundValue, flame := i.flameValue, water := i.waterValue,
    light := i.lightValue, distanceCm := i.distance }

/-- The ordered rule list of the specification: predicate and decision, by
decreasing priority. -/
def referenceRules : List ((SensorSnapshot → Bool) × AlertDecision) :=
  [ (fun r => decide (r.flame < 250), ⟨AlertType.Fire, "FIRE DETECTED", AlertSeverity.Critical⟩),
    (fun r => decide (r.distanceCm < 50),
      ⟨AlertType.Proximity, "PROXIMITY ALERT", AlertSeverity.Critical⟩),
    (fun r => decide (r.sound > 400), ⟨AlertType.Sound, "Sound Alert", AlertSeverity.Moderate⟩),
    (fun r => decide (r.water < 500), ⟨AlertType.Water, "Water Detected", AlertSeverity.Critical⟩),
    (fun r => decide (r.light < 500), ⟨AlertType.Tamper, "Tamper Alert", AlertSeverity.Moderate⟩) ]

/-- First-match-wins evaluation of the reference rule list. -/
def referenceDecision (r : SensorSnapshot) : Option AlertDecision :=
  (referenceRules.find? (fun rule => rule.1 r)).map (fun rule => rule.2)

/-- Whether a call is a blocking `delay`. -/
def Event.isDelay : Event → Bool
  | Event.delay _ => true
  | _ => false

/-- The calls made by the critical branch of `handleAlert` (lines 143-152), in
program order, for a given message. -/
def criticalActuation (message : String) : List Event :=
  [ Event.lcdClear, Event.lcdSetCursor 0 0, Event.lcdPrint "! ALERT !" ] ++
  (if message ≠ "" then [Event.lcdSetCursor 0 1, Event.lcdPrint message] else []) ++
  [ Event.digitalWrite Pin.RED_PIN true, Event.digitalWrite Pin.GREEN_PIN false,
    Event.digitalWrite Pin.BLUE_PIN false,
    Event.tone Pin.BUZZER_PIN 2000 200, Event.delay 300,
    Event.tone Pin.BUZZER_PIN 1500 200, Event.delay 300,
    Event.tone Pin.BUZZER_PIN 2000 200, Event.delay 300,
    Event.tone Pin.BUZZER_PIN 1500 200, Event.delay 300,
    Event.tone Pin.BUZZER_PIN 2000 200, Event.delay 300,
    Event.tone Pin.BUZZER_PIN 1500 200, Event.delay 300,
    Event.noTone Pin.BUZZER_PIN, Event.delay 2000,
    Event.lcdClear, Event.lcdSetCursor 0 0, Event.lcdPrint "System Ready",
    Event.lcdSetCursor 0 1, Event.lcdPrint "Monitoring...",
    Event.digitalWrite Pin.RED_PIN false, Event.digitalWrite Pin.GREEN_PIN true,
    Event.digitalWrite Pin.BLUE_PIN false ]

/-- The calls made by `readUltrasonicDistance`, in program order. -/
def probeCalls : List Event :=
  [ Event.digitalWrite Pin.TRIG_PIN false, Event.delayMicroseconds 2,
    Event.digitalWrite Pin.TRIG_PIN true, Event.delayMicroseconds 10,
    Event.digitalWrite Pin.TRIG_PIN false, Event.pulseIn Pin.ECHO_PIN true ]

/-- The calls made by one call of `handleAlert`, in program order: the serial
record, then the actuation when the severity is critical. -/
def alertCalls (type : AlertType) (message : String) (severity : AlertSeverity) : List Event :=
  alertRecord type message severity ++
    (if severity = AlertSeverity.Critical then criticalActuation message else [])

/-- One repetition of the beep pattern: high tone, `delay(300)`, low tone,
`delay(300)`, as the calls of lines 161-164. -/
def beepCycle : List Event :=
  [ Event.tone Pin.BUZZER_PIN 2000 200, Event.delay 300,
    Event.tone Pin.BUZZER_PIN 1500 200, Event.delay 300 ]

/-! ## Basic facts -/

theorem readUltrasonicDistance_eq (echoCm : Nat) (s : State) :
    readUltrasonicDistance echoCm s = (echoCm, { s with out := s.out ++ probeCalls }) := by
  simp [readUltrasonicDistance, digitalWrite, emit, probeCalls]

theorem handleAlert_not_critical (type : AlertType) (message : String)
    (severity : AlertSeverity) (millis : Nat) (s : State)
    (h : severity ≠ AlertSeverity.Critical) :
    handleAlert type message severity millis s =
      { s with lastAlertTime := millis,
               out := s.out ++ alertRecord type message severity } := by
  simp [handleAlert, h, sendSerialData, emit, alertRecord]

theorem handleAlert_critical (type : AlertType) (message : String) (millis : Nat)
    (s : State) :
    handleAlert type message AlertSeverity.Critical millis s =
      { lastAlertTime := millis, currentState := SystemState.Normal,
        lcdRow0 := "System Ready", lcdRow1 := "Monitoring...",
        red := false, green := true, blue := false,
        out := s.out ++ (alertRecord type message AlertSeverity.Critical ++
          criticalActuation message) } := by
  by_cases hm : message = ""
  · simp [handleAlert, sendSerialData, emit, alertRecord, criticalActuation, updateLCD,
      lcdClear, lcdPrintAt, setRGBColor, digitalWrite, activateBuzzer, beepPattern, tone,
      delay, noTone, hm]
  · simp [handleAlert, sendSerialData, emit, alertRecord, criticalActuation, updateLCD,
      lcdClear, lcdPrintAt, setRGBColor, digitalWrite, activateBuzzer, beepPattern, tone,
      delay, noTone, hm]

theorem handleAlert_lastAlertTime (type : AlertType) (message : String)
    (severity : AlertSeverity) (millis : Nat) (s : State) :
    (handleAlert type message severity millis s).lastAlertTime = millis := by
  by_cases h : severity = AlertSeverity.Critical
  · subst h
    rw [handleAlert_critical]
  · rw [handleAlert_not_critical _ _ _ _ _ h]

theorem loop_eq_dispatch (i : LoopInput) (s : State) :
    loop i s = delay 100 (dispatch (loopDecision i s.lastAlertTime) i.millisAtAlert
      (readUltrasonicDistance i.distance s).2) := by
  unfold loop loopDecision dispatch
  simp only [readUltrasonicDistance_eq]
  split_ifs <;> rfl

theorem loopDecision_none_of_cooldown (i : LoopInput) (last : Nat)
    (h : ulSub i.millisAtCheck last < 5000) : loopDecision i last = none := by
  have h2 : ¬ ulSub i.millisAtCheck last ≥ alertCooldown := by
    simp only [alertCooldown]
    omega
  simp [loopDecision, h2]

theorem loopDecision_eq_reference (i : LoopInput) (last : Nat)
    (h : ulSub i.millisAtCheck last ≥ 5000) :
    loopDecision i last = referenceDecision i.snapshot := by
  have h2 : ulSub i.millisAtCheck last ≥ alertCooldown := h
  simp only [loopDecision, h2, if_true, referenceDecision, referenceRules, LoopInput.snapshot,
    flameThreshold, distanceThreshold, soundThreshold, waterThreshold, lightThreshold]
  by_cases h1 : i.flameValue < 250
  · simp [List.find?, h1]
  by_cases h3 : i.distance < 50
  · simp [List.find?, h1, h3]
  by_cases h4 : i.soundValue > 400
  · simp [List.find?, h1, h3, h4]
  by_cases h5 : i.waterValue < 500
  · simp [List.find?, h1, h3, h4, h5]
  by_cases h6 : i.lightValue < 500
  · simp [List.find?, h1, h3, h4, h5, h6]
  · simp [List.find?, h1, h3, h4, h5, h6]

theorem loop_idle (i : LoopInput) (s : State)
    (h : loopDecision i s.lastAlertTime = none) : loop i s = idleIteration i s := by
  rw [loop_eq_dispatch, h]
  rfl

theorem idleIteration_eq (i : LoopInput) (s : State) :
    idleIteration i s = { s with out := s.out ++ (probeCalls ++ [Event.delay 100]) } := by
  simp [idleIteration, readUltrasonicDistance_eq, delay, emit]

theorem newEvents_append (s t : State) (es : List Event) (h : t.out = s.out ++ es) :
    newEvents s t = es := by
  simp [newEvents, h]

theorem logLinesFrom_probeCalls (cur : String) (rest : List Event) :
    logLinesFrom cur (probeCalls ++ rest) = logLinesFrom cur rest := by
  simp [probeCalls, logLinesFrom]

theorem logLinesFrom_alertRecord (type : AlertType) (message : String)
    (severity : AlertSeverity) (rest : List Event) :
    logLinesFrom "" (alertRecord type message severity ++ rest) =
      [ "----------------------------------------",
        "Sensor: " ++ getAlertTypeName type,
        "Alert: " ++ message,
        "Severity: " ++ severityLabel severity,
        "----------------------------------------" ] ++ logLinesFrom "" rest := by
  simp [alertRecord, logLinesFrom]

theorem logLinesFrom_criticalActuation (cur : String) (message : String)
    (rest : List Event) :
    logLinesFrom cur (criticalActuation message ++ rest) = logLinesFrom cur rest := by
  by_cases hm : message = "" <;> simp [criticalActuation, logLinesFrom, hm]

theorem logLinesFrom_alertCalls (type : AlertType) (message : String)
    (severity : AlertSeverity) (rest : List Event) :
    logLinesFrom "" (alertCalls type message severity ++ rest) =
      [ "----------------------------------------",
        "Sensor: " ++ getAlertTypeName type,
        "Alert: " ++ message,
        "Severity: " ++ severityLabel severity,
        "----------------------------------------" ] ++ logLinesFrom "" rest := by
  unfold alertCalls
  rw [List.append_assoc, logLinesFrom_alertRecord]
  split_ifs
  · rw [logLinesFrom_criticalActuation]
  · rfl

theorem handleAlert_out (type : AlertType) (message : String) (severity : AlertSeverity)
    (millis : Nat) (s : State) :
    (handleAlert type message severity millis s).out =
      s.out ++ alertCalls type message severity := by
  by_cases h : severity = AlertSeverity.Critical
  · subst h
    rw [handleAlert_critical]
    simp [alertCalls]
  · rw [handleAlert_not_critical _ _ _ _ _ h]
    simp [alertCalls, h]

theorem loop_out (i : LoopInput) (s : State) :
    (loop i s).out = s.out ++ (probeCalls ++
      ((match loopDecision i s.lastAlertTime with
        | some d => alertCalls d.type d.message d.severity
        | none => []) ++ [Event.delay 100])) := by
  rw [loop_eq_dispatch, readUltrasonicDistance_eq]
  cases hd : loopDecision i s.lastAlertTime with
  | none => simp [dispatch, delay, emit]
  | some d => simp [dispatch, delay, emit, handleAlert_out]

theorem loop_logLines (i : LoopInput) (s : State) :
    logLines (newEvents s (loop i s)) =
      match loopDecision i s.lastAlertTime with
      | some d =>
        [ "----------------------------------------",
          "Sensor: " ++ getAlertTypeName d.type,
          "Alert: " ++ d.message,
          "Severity: " ++ severityLabel d.severity,
          "----------------------------------------" ]
      | none => [] := by
  rw [newEvents_append s _ _ (loop_out i s), logLines, logLinesFrom_probeCalls]
  cases hd : loopDecision i s.lastAlertTime with
  | none => simp [logLinesFrom]
  | some d =>
    show logLinesFrom "" (alertCalls d.type d.message d.severity ++ [Event.delay 100]) = _
    rw [logLinesFrom_alertCalls]
    rfl

theorem loopDecision_sound (i : LoopInput) (last : Nat) (d : AlertDecision)
    (h : loopDecision i last = some d) :
    (d.type = AlertType.Fire → i.flameValue < 250) ∧
    (d.type = AlertType.Proximity → i.distance < 50) ∧
    (d.type = AlertType.Sound → 400 < i.soundValue) ∧
    (d.type = AlertType.Water → i.waterValue < 500) ∧
    (d.type = AlertType.Tamper → i.lightValue < 500) ∧
    d.type ≠ AlertType.None := by
  unfold loopDecision at h
  simp only [flameThreshold, distanceThreshold, soundThreshold, waterThreshold,
    lightThreshold] at h
  split_ifs at h <;> simp at h <;> subst h <;> simp <;> omega

theorem loop_lastAlertTime (i : LoopInput) (s : State) :
    (loop i s).lastAlertTime =
      match loopDecision i s.lastAlertTime with
      | some _ => i.millisAtAlert
      | none => s.lastAlertTime := by
  rw [loop_eq_dispatch, readUltrasonicDistance_eq]
  cases hd : loopDecision i s.lastAlertTime with
  | none => simp [dispatch, delay, emit]
  | some d => simp [dispatch, delay, emit, handleAlert_lastAlertTime]

theorem loopDecision_isSome_gate (i : LoopInput) (last : Nat)
    (h : (loopDecision i last).isSome = true) : ulSub i.millisAtCheck last ≥ 5000 := by
  by_contra hc
  rw [loopDecision_none_of_cooldown i last (by omega)] at h
  simp at h

theorem ulSub_ge_of_le (a b : Nat) (hle : b ≤ a) (h : ulSub a b ≥ 5000) : b + 5000 ≤ a := by
  simp only [ulSub, ULONG_SPAN] at h
  omega

theorem ulSub_ge_of_far (a b : Nat) (hle : b + 5000 ≤ a) (ha : a < 4294967296) :
    ulSub a b ≥ 5000 := by
  simp only [ulSub, ULONG_SPAN]
  omega

theorem ulSub_lt_of_close (a b : Nat) (hle : b ≤ a) (h : a - b < 5000) : ulSub a b < 5000 := by
  simp only [ulSub, ULONG_SPAN]
  omega

/-- One iteration preserves the run invariant: the remaining clock values are
non-decreasing and none is below `lastAlertTime`. -/
theorem clockReads_step (p : LoopInput) (rest : List LoopInput) (s : State)
    (hp : List.Pairwise (fun a b => a ≤ b) (clockReads (p :: rest) s))
    (hb : ∀ r ∈ clockReads (p :: rest) s, s.lastAlertTime ≤ r) :
    List.Pairwise (fun a b => a ≤ b) (clockReads rest (loop p s)) ∧
    ∀ r ∈ clockReads rest (loop p s), (loop p s).lastAlertTime ≤ r := by
  rw [loop_lastAlertTime]
  cases hd : loopDecision p s.lastAlertTime with
  | none =>
    simp only [clockReads, hd, Option.isSome_none, Bool.false_eq_true, if_false,
      List.cons_append, List.append_nil, List.nil_append, List.pairwise_cons,
      List.mem_cons] at hp hb
    exact ⟨hp.2, fun r hr => hb r (Or.inr hr)⟩
  | some d =>
    simp only [clockReads, hd, Option.isSome_some, if_true, List.cons_append,
      List.nil_append, List.pairwise_cons, List.mem_cons] at hp hb
    exact ⟨hp.2.2, fun r hr => hp.2.1 r hr⟩

theorem runLoop_lastAlertTime_le (pre : List LoopInput) :
    ∀ (s : State) (i : LoopInput) (post : List LoopInput),
      List.Pairwise (fun a b => a ≤ b) (clockReads (pre ++ i :: post) s) →
      (∀ r ∈ clockReads (pre ++ i :: post) s, s.lastAlertTime ≤ r) →
      (runLoop pre s).lastAlertTime ≤ (loop i (runLoop pre s)).lastAlertTime := by
  induction pre with
  | nil =>
    intro s i post hp hb
    simp only [List.nil_append] at hp hb
    simp only [runLoop]
    rw [loop_lastAlertTime]
    cases hd : loopDecision i s.lastAlertTime with
    | none => exact Nat.le_refl _
    | some d =>
      apply hb
      simp [clockReads, hd]
  | cons p pre ih =>
    intro s i post hp hb
    have hstep := clockReads_step p (pre ++ i :: post) s hp hb
    exact ih (loop p s) i post hstep.1 hstep.2

theorem alertTimes_chain (run : List LoopInput) :
    ∀ s : State, List.Pairwise (fun a b => a ≤ b) (clockReads run s) →
      (∀ r ∈ clockReads run s, s.lastAlertTime ≤ r) →
      List.Chain (fun a b => a + 5000 ≤ b) s.lastAlertTime (alertTimes run s) := by
  induction run with
  | nil => intro s _ _; exact List.Chain.nil
  | cons p rest ih =>
    intro s hp hb
    have hstep := clockReads_step p rest s hp hb
    have hrec := ih (loop p s) hstep.1 hstep.2
    rw [loop_lastAlertTime] at hrec
    cases hd : loopDecision p s.lastAlertTime with
    | none =>
      rw [hd] at hrec
      simpa [alertTimes, hd] using hrec
    | some d =>
      rw [hd] at hrec
      have hgate := loopDecision_isSome_gate p s.lastAlertTime (by rw [hd]; rfl)
      have h1 : s.lastAlertTime ≤ p.millisAtCheck := hb _ (by simp [clockReads])
      have h2 : p.millisAtCheck ≤ p.millisAtAlert := by
        simp only [clockReads, hd, Option.isSome_some, if_true, List.cons_append,
          List.nil_append, List.pairwise_cons, List.mem_cons] at hp
        exact hp.1 _ (Or.inl rfl)
      have h3 := ulSub_ge_of_le _ _ h1 hgate
      simp only [alertTimes, hd, Option.isSome_some, if_true, List.cons_append,
        List.nil_append]
      exact List.Chain.cons (by omega) hrec

theorem alertTimes_chain' (run : List LoopInput) :
    ∀ s : State, List.Pairwise (fun a b => a ≤ b) (clockReads run s) →
      List.Chain' (fun a b => a + 5000 ≤ b) (alertTimes run s) := by
  induction run with
  | nil => intro s _; exact List.chain'_nil
  | cons p rest ih =>
    intro s hp
    cases hd : loopDecision p s.lastAlertTime with
    | none =>
      have hp2 : List.Pairwise (fun a b => a ≤ b) (clockReads rest (loop p s)) := by
        simp only [clockReads, hd, Option.isSome_none, Bool.false_eq_true, if_false,
          List.cons_append, List.nil_append, List.pairwise_cons] at hp
        exact hp.2
      simpa [alertTimes, hd] using ih (loop p s) hp2
    | some d =>
      simp only [clockReads, hd, Option.isSome_some, if_true, List.cons_append,
        List.nil_append, List.pairwise_cons, List.mem_cons] at hp
      have hlast : (loop p s).lastAlertTime = p.millisAtAlert := by
        rw [loop_lastAlertTime, hd]
      have hrec := alertTimes_chain rest (loop p s) hp.2.2
        (fun r hr => by rw [hlast]; exact hp.2.1 r hr)
      rw [hlast] at hrec
      simp only [alertTimes, hd, Option.isSome_some, if_true, List.cons_append,
        List.nil_append]
      exact hrec

theorem ulSub_ge_of_congr (a b t : Nat) (hb : b % 4294967296 = t % 4294967296)
    (hle : t ≤ a) (h : ulSub (a % 4294967296) b ≥ 5000) : t + 5000 ≤ a := by
  simp only [ulSub, ULONG_SPAN] at h
  omega

theorem trueAlertTimes_chain (run : List LoopInput) :
    ∀ (s : State) (t : Nat), s.lastAlertTime % 4294967296 = t % 4294967296 →
      List.Pairwise (fun a b => a ≤ b) (trueClockReads run s) →
      (∀ r ∈ trueClockReads run s, t ≤ r) →
      List.Chain (fun a b => a + 5000 ≤ b) t (trueAlertTimes run s) := by
  induction run with
  | nil => intro s t _ _ _; exact List.Chain.nil
  | cons p rest ih =>
    intro s t ht hp hb
    cases hd : loopDecision p.wrapped s.lastAlertTime with
    | none =>
      have hlast : (loop p.wrapped s).lastAlertTime = s.lastAlertTime := by
        rw [loop_lastAlertTime, hd]
      simp only [trueClockReads, hd, Option.isSome_none, Bool.false_eq_true, if_false,
        List.cons_append, List.nil_append, List.pairwise_cons, List.mem_cons] at hp hb
      have hrec := ih (loop p.wrapped s) t (by rw [hlast]; exact ht) hp.2
        (fun r hr => hb r (Or.inr hr))
      simpa [trueAlertTimes, hd] using hrec
    | some d =>
      have hlast : (loop p.wrapped s).lastAlertTime = p.millisAtAlert % 4294967296 := by
        rw [loop_lastAlertTime, hd]
        rfl
      have hgate := loopDecision_isSome_gate p.wrapped s.lastAlertTime (by rw [hd]; rfl)
      simp only [trueClockReads, hd, Option.isSome_some, if_true, List.cons_append,
        List.nil_append, List.pairwise_cons, List.mem_cons] at hp hb
      have h1 : t ≤ p.millisAtCheck := hb _ (Or.inl rfl)
      have h2 : p.millisAtCheck ≤ p.millisAtAlert := hp.1 _ (Or.inl rfl)
      have h3 := ulSub_ge_of_congr p.millisAtCheck s.lastAlertTime t ht h1 hgate
      have hrec := ih (loop p.wrapped s) p.millisAtAlert
        (by rw [hlast]; exact Nat.mod_mod _ _) hp.2.2 (fun r hr => hp.2.1 r hr)
      simp only [trueAlertTimes, hd, Option.isSome_some, if_true, List.cons_append,
        List.nil_append]
      exact List.Chain.cons (by omega) hrec

theorem trueAlertTimes_chain' (run : List LoopInput) :
    ∀ s : State, List.Pairwise (fun a b => a ≤ b) (trueClockReads run s) →
      List.Chain' (fun a b => a + 5000 ≤ b) (trueAlertTimes run s) := by
  induction run with
  | nil => intro s _; exact List.chain'_nil
  | cons p rest ih =>
    intro s hp
    cases hd : loopDecision p.wrapped s.lastAlertTime with
    | none =>
      simp only [trueClockReads, hd, Option.isSome_none, Bool.false_eq_true, if_false,
        List.cons_append, List.nil_append, List.pairwise_cons] at hp
      simpa [trueAlertTimes, hd] using ih (loop p.wrapped s) hp.2
    | some d =>
      simp only [trueClockReads, hd, Option.isSome_some, if_true, List.cons_append,
        List.nil_append, List.pairwise_cons, List.mem_cons] at hp
      have hlast : (loop p.wrapped s).lastAlertTime = p.millisAtAlert % 4294967296 := by
        rw [loop_lastAlertTime, hd]
        rfl
      have hrec := trueAlertTimes_chain rest (loop p.wrapped s) p.millisAtAlert
        (by rw [hlast]; exact Nat.mod_mod _ _) hp.2.2 (fun r hr => hp.2.1 r hr)
      simp only [trueAlertTimes, hd, Option.isSome_some, if_true, List.cons_append,
        List.nil_append]
      exact hrec

theorem loop_currentState (i : LoopInput) (s : State)
    (h : s.currentState = SystemState.Normal) :
    (loop i s).currentState = SystemState.Normal := by
  rw [loop_eq_dispatch, readUltrasonicDistance_eq]
  cases hd : loopDecision i s.lastAlertTime with
  | none => simpa [dispatch, delay, emit] using h
  | some d =>
    by_cases hs : d.severity = AlertSeverity.Critical
    · simp [dispatch, delay, emit, hs, handleAlert_critical]
    · simpa [dispatch, delay, emit, handleAlert_not_critical _ _ _ _ _ hs] using h

theorem runLoop_currentState (run : List LoopInput) :
    ∀ s : State, s.currentState = SystemState.Normal →
      (runLoop run s).currentState = SystemState.Normal := by
  induction run with
  | nil => intro s h; exact h
  | cons i rest ih => intro s h; exact ih (loop i s) (loop_currentState i s h)

theorem setup_currentState (s : State) : (setup s).currentState = SystemState.Normal := by
  simp [setup, performSelfTest, updateLCD, lcdClear, lcdPrintAt, setRGBColor, digitalWrite,
    tone, delay, emit]

theorem setup_lastAlertTime (s : State) : (setup s).lastAlertTime = s.lastAlertTime := by
  simp [setup, performSelfTest, updateLCD, lcdClear, lcdPrintAt, setRGBColor, digitalWrite,
    tone, delay, emit]

theorem activateBuzzer_out (s : State) :
    (activateBuzzer AlertSeverity.Critical s).out =
      s.out ++ (beepCycle ++ beepCycle ++ beepCycle ++ [Event.noTone Pin.BUZZER_PIN]) := by
  simp [activateBuzzer, beepPattern, beepCycle, tone, delay, noTone, emit]

theorem criticalActuation_timed (message : String) :
    (criticalActuation message).filter (fun e => e.isBuzzer || e.isDelay) =
      beepCycle ++ beepCycle ++ beepCycle ++
        [Event.noTone Pin.BUZZER_PIN, Event.delay 2000] := by
  by_cases hm : message = "" <;>
    simp [criticalActuation, beepCycle, hm, Event.isBuzzer, Event.isDelay]

theorem blockedMs_criticalActuation (message : String) :
    blockedMs (criticalActuation message) = 3800 := by
  by_cases hm : message = "" <;> simp [criticalActuation, blockedMs, hm]

theorem blockedMs_append (xs ys : List Event) :
    blockedMs (xs ++ ys) = blockedMs xs + blockedMs ys := by
  induction xs with
  | nil => simp [blockedMs]
  | cons e es ih => cases e <;> simp [blockedMs, ih, Nat.add_assoc]

theorem lastBuzzerCommand_criticalActuation (message : String) (pre : List Event) :
    lastBuzzerCommand (pre ++ criticalActuation message) =
      some (Event.noTone Pin.BUZZER_PIN) := by
  by_cases hm : message = "" <;>
    simp [lastBuzzerCommand, criticalActuation, hm, Event.isBuzzer, List.getLast?_append]

/-! ## Claims -/

/-- C1. Cooldown gate: whenever the difference between the clock value read on
line 111 and `lastAlertTime` is below 5000 (as the unsigned subtraction of the
code computes it, or as a plain difference of a clock value that is not before
`lastAlertTime`), whatever the sensor readings, the alert evaluation yields no
decision and the iteration is the idle one: `handleAlert` is not called,
`lastAlertTime`, phase, display and indicator keep their values, nothing is
written to the serial port, and the only calls made are those of the distance
probe and the final `delay(100)`. -/
theorem C1_cooldown_gate_absolute (i : LoopInput) (s : State)
    (hgate : ulSub i.millisAtCheck s.lastAlertTime < 5000 ∨
      (s.lastAlertTime ≤ i.millisAtCheck ∧ i.millisAtCheck - s.lastAlertTime < 5000)) :
    loopDecision i s.lastAlertTime = none ∧
    loop i s = idleIteration i s ∧
    (loop i s).lastAlertTime = s.lastAlertTime ∧
    (loop i s).currentState = s.currentState ∧
    (loop i s).lcdRow0 = s.lcdRow0 ∧ (loop i s).lcdRow1 = s.lcdRow1 ∧
    (loop i s).red = s.red ∧ (loop i s).green = s.green ∧ (loop i s).blue = s.blue ∧
    newEvents s (loop i s) = probeCalls ++ [Event.delay 100] ∧
    logLines (newEvents s (loop i s)) = [] := by
  have h : ulSub i.millisAtCheck s.lastAlertTime < 5000 := by
    rcases hgate with h | ⟨hle, hlt⟩
    · exact h
    · exact ulSub_lt_of_close _ _ hle hlt
  have hn := loopDecision_none_of_cooldown i s.lastAlertTime h
  have hl : loop i s = { s with out := s.out ++ (probeCalls ++ [Event.delay 100]) } := by
    rw [loop_idle i s hn, idleIteration_eq]
  have hout : (loop i s).out = s.out ++ (probeCalls ++ [Event.delay 100]) := by rw [hl]
  have hnew := newEvents_append s (loop i s) _ hout
  refine ⟨hn, loop_idle i s hn, ?_, ?_, ?_, ?_, ?_, ?_, ?_, hnew, ?_⟩
  · rw [hl]
  · rw [hl]
  · rw [hl]
  · rw [hl]
  · rw [hl]
  · rw [hl]
  · rw [hl]
  · rw [hnew]
    decide

/-- Witness for C1: one second after an alert recorded at 7000 ms, a snapshot
that crosses every threshold raises nothing. -/
theorem C1_cooldown_gate_absolute_witness :
    ulSub 8000 7000 < 5000 ∧
    loopDecision ⟨900, 0, 0, 0, 0, 8000, 8000⟩ 7000 = none := by
  have h : ulSub 8000 7000 < 5000 := by decide
  exact ⟨h, (C1_cooldown_gate_absolute ⟨900, 0, 0, 0, 0, 8000, 8000⟩
    { powerOn with lastAlertTime := 7000 } (Or.inl h)).1⟩

/-- C2. Fire has top priority: when the flame reading is below 250 and the
difference between the clock and `lastAlertTime` is at least 5000 (as the
unsigned subtraction of the code computes it, or as a plain difference of a
32-bit clock value), the evaluation yields exactly the decision Fire,
"FIRE DETECTED", Critical, and the iteration calls `handleAlert` with these
arguments, whatever the distance, sound, water and light readings are. -/
theorem C2_fire_top_priority (i : LoopInput) (s : State)
    (hflame : i.flameValue < 250)
    (hcool : ulSub i.millisAtCheck s.lastAlertTime ≥ 5000 ∨
      (s.lastAlertTime + 5000 ≤ i.millisAtCheck ∧ i.millisAtCheck < 4294967296)) :
    loopDecision i s.lastAlertTime =
      some ⟨AlertType.Fire, "FIRE DETECTED", AlertSeverity.Critical⟩ ∧
    loop i s = delay 100 (handleAlert AlertType.Fire "FIRE DETECTED" AlertSeverity.Critical
      i.millisAtAlert (readUltrasonicDistance i.distance s).2) := by
  have hc : ulSub i.millisAtCheck s.lastAlertTime ≥ alertCooldown := by
    rcases hcool with h | ⟨hle, hlt⟩
    · exact h
    · exact ulSub_ge_of_far _ _ hle hlt
  have hf : i.flameValue < flameThreshold := hflame
  have hd : loopDecision i s.lastAlertTime =
      some ⟨AlertType.Fire, "FIRE DETECTED", AlertSeverity.Critical⟩ := by
    simp [loopDecision, hc, hf]
  refine ⟨hd, ?_⟩
  rw [loop_eq_dispatch, hd]
  rfl

/-- Witness for C2 (scenario D): flame 200 together with distance 30, cooldown
elapsed, yields Fire and not Proximity. -/
theorem C2_fire_top_priority_witness :
    loopDecision ⟨0, 200, 600, 600, 30, 5000, 5001⟩ powerOn.lastAlertTime =
      some ⟨AlertType.Fire, "FIRE DETECTED", AlertSeverity.Critical⟩ :=
  (C2_fire_top_priority ⟨0, 200, 600, 600, 30, 5000, 5001⟩ powerOn (by decide)
    (Or.inl (by decide))).1

/-- C3. First match wins: once the cooldown has elapsed (the difference between
the clock and `lastAlertTime` is at least 5000), the decision of the
iteration is the one of the reference rule list (flame < 250, then
distance < 50, then sound > 400, then water < 500, then light < 500, else
nothing) evaluated first-match-wins, and `loop` dispatches exactly that
decision. Every comparison is strict: a decision of a given type is only made
when the reading is strictly beyond its threshold, and readings equal to their
thresholds raise nothing. An iteration writes at most one record of five
lines; sound 450 with flame and distance safe yields Sound, Moderate whatever
water and light read. -/
theorem C3_first_match_wins (i : LoopInput) (s : State)
    (hgate : ulSub i.millisAtCheck s.lastAlertTime ≥ 5000 ∨
      (s.lastAlertTime + 5000 ≤ i.millisAtCheck ∧ i.millisAtCheck < 4294967296)) :
    loopDecision i s.lastAlertTime = referenceDecision i.snapshot ∧
    loop i s = delay 100 (dispatch (referenceDecision i.snapshot) i.millisAtAlert
      (readUltrasonicDistance i.distance s).2) ∧
    (∀ d, loopDecision i s.lastAlertTime = some d →
      (d.type = AlertType.Fire → i.flameValue < 250) ∧
      (d.type = AlertType.Proximity → i.distance < 50) ∧
      (d.type = AlertType.Sound → 400 < i.soundValue) ∧
      (d.type = AlertType.Water → i.waterValue < 500) ∧
      (d.type = AlertType.Tamper → i.lightValue < 500) ∧
      d.type ≠ AlertType.None) ∧
    (i.flameValue = 250 → i.distance = 50 → i.soundValue = 400 → i.waterValue = 500 →
      i.lightValue = 500 → loopDecision i s.lastAlertTime = none) ∧
    (logLines (newEvents s (loop i s))).length ≤ 5 ∧
    (i.soundValue = 450 → 250 ≤ i.flameValue → 50 ≤ i.distance →
      loopDecision i s.lastAlertTime =
        some ⟨AlertType.Sound, "Sound Alert", AlertSeverity.Moderate⟩) := by
  have hcool : ulSub i.millisAtCheck s.lastAlertTime ≥ 5000 := by
    rcases hgate with h | ⟨hle, hlt⟩
    · exact h
    · exact ulSub_ge_of_far _ _ hle hlt
  have hc : ulSub i.millisAtCheck s.lastAlertTime ≥ alertCooldown := hcool
  have href := loopDecision_eq_reference i s.lastAlertTime hcool
  refine ⟨href, ?_, ?_, ?_, ?_, ?_⟩
  · rw [loop_eq_dispatch, href]
  · intro d hd
    exact loopDecision_sound i s.lastAlertTime d hd
  · intro h1 h2 h3 h4 h5
    simp [loopDecision, h1, h2, h3, h4, h5, flameThreshold, distanceThreshold,
      soundThreshold, waterThreshold, lightThreshold]
  · rw [loop_logLines]
    cases loopDecision i s.lastAlertTime <;> simp
  · intro h1 h2 h3
    have h2n : ¬ i.flameValue < flameThreshold := by simp only [flameThreshold]; omega
    have h3n : ¬ i.distance < distanceThreshold := by simp only [distanceThreshold]; omega
    simp [loopDecision, hc, h1, h2n, h3n, soundThreshold]

/-- Witness for C3 (scenario B): sound 450, water 600, flame and distance safe,
cooldown elapsed: the decision is Sound, Moderate. -/
theorem C3_first_match_wins_witness :
    loopDecision ⟨450, 300, 600, 600, 100, 5000, 5000⟩ powerOn.lastAlertTime =
      some ⟨AlertType.Sound, "Sound Alert", AlertSeverity.Moderate⟩ :=
  (C3_first_match_wins ⟨450, 300, 600, 600, 100, 5000, 5000⟩ powerOn
    (Or.inr (by decide))).2.2.2.2.2 rfl (by decide) (by decide)

/-- C4. Alerts are suppressed after any dispatched alert. (a) If an iteration
raises an alert of any severity and `handleAlert` records the time `t1`, then
an iteration whose clock value `t2` satisfies `t1 ≤ t2` and `t2 - t1 < 5000`
evaluates to no decision against the resulting state and is idle, whatever its
readings. (b) The same holds for any call of `handleAlert` at `t1`. (c) In
every run whose successive clock values are non-decreasing, the times recorded
by two consecutive dispatched alerts differ by at least 5000. (d) The same
holds for true times when the 32-bit clock rolls over during the run: if the
true times of the clock reads are non-decreasing and the sketch sees them
modulo `2^32`, the true times of two consecutive dispatched alerts differ by
at least 5000. -/
theorem C4_suppressed_after_dispatch :
    (∀ (i1 i2 : LoopInput) (s : State),
      (loopDecision i1 s.lastAlertTime).isSome = true →
      i1.millisAtAlert ≤ i2.millisAtCheck →
      i2.millisAtCheck - i1.millisAtAlert < 5000 →
        (loop i1 s).lastAlertTime = i1.millisAtAlert ∧
        loopDecision i2 (loop i1 s).lastAlertTime = none ∧
        loop i2 (loop i1 s) = idleIteration i2 (loop i1 s)) ∧
    (∀ (d : AlertDecision) (t1 : Nat) (i2 : LoopInput) (s : State),
      t1 ≤ i2.millisAtCheck → i2.millisAtCheck - t1 < 5000 →
        loopDecision i2 (handleAlert d.type d.message d.severity t1 s).lastAlertTime = none) ∧
    (∀ (run : List LoopInput) (s : State),
      List.Chain' (fun a b => a ≤ b) (clockReads run s) →
        List.Chain' (fun a b => a + 5000 ≤ b) (alertTimes run s)) ∧
    (∀ (run : List LoopInput) (s : State),
      List.Chain' (fun a b => a ≤ b) (trueClockReads run s) →
        List.Chain' (fun a b => a + 5000 ≤ b) (trueAlertTimes run s)) := by
  refine ⟨?_, ?_, ?_, ?_⟩
  · intro i1 i2 s hsome hle hlt
    have hlast : (loop i1 s).lastAlertTime = i1.millisAtAlert := by
      rw [loop_lastAlertTime]
      cases hd : loopDecision i1 s.lastAlertTime with
      | none => rw [hd] at hsome; simp at hsome
      | some d => rfl
    have hnone : loopDecision i2 (loop i1 s).lastAlertTime = none := by
      rw [hlast]
      exact loopDecision_none_of_cooldown i2 _ (ulSub_lt_of_close _ _ hle hlt)
    exact ⟨hlast, hnone, loop_idle i2 (loop i1 s) hnone⟩
  · intro d t1 i2 s hle hlt
    rw [handleAlert_lastAlertTime]
    exact loopDecision_none_of_cooldown i2 _ (ulSub_lt_of_close _ _ hle hlt)
  · intro run s hmono
    exact alertTimes_chain' run s (List.chain'_iff_pairwise.mp hmono)
  · intro run s hmono
    exact trueAlertTimes_chain' run s (List.chain'_iff_pairwise.mp hmono)

/-- Witness for C4 (scenario C): a Moderate sound alert recorded at 5000 ms
suppresses a fire seen 1000 ms later; in a run with alerts pending at 5000,
6000 and 11000 ms only those at 5000 and 11000 are dispatched; and in a run
after `setup` with fire seen 100 ms before the clock wraps, then 4100 ms and
5000 ms later, the true alert times of the run are at least 5000 apart. -/
theorem C4_suppressed_after_dispatch_witness :
    loopDecision ⟨0, 100, 600, 600, 100, 6000, 6000⟩
      (loop ⟨450, 300, 600, 600, 100, 5000, 5000⟩ powerOn).lastAlertTime = none ∧
    List.Chain' (fun a b => a + 5000 ≤ b)
      (alertTimes [⟨450, 300, 600, 600, 100, 5000, 5000⟩, ⟨0, 100, 600, 600, 100, 6000, 6000⟩,
        ⟨0, 100, 600, 600, 100, 11000, 11000⟩] powerOn) ∧
    List.Chain' (fun a b => a + 5000 ≤ b)
      (trueAlertTimes [⟨0, 100, 600, 600, 100, 4294967196, 4294967196⟩,
        ⟨0, 100, 600, 600, 100, 4294971296, 4294971296⟩,
        ⟨0, 100, 600, 600, 100, 4294972196, 4294972196⟩] (setup powerOn)) := by
  refine ⟨(C4_suppressed_after_dispatch.1 ⟨450, 300, 600, 600, 100, 5000, 5000⟩
      ⟨0, 100, 600, 600, 100, 6000, 6000⟩ powerOn (by decide) (by decide) (by decide)).2.1,
    C4_suppressed_after_dispatch.2.2.1 _ powerOn ?_,
    C4_suppressed_after_dispatch.2.2.2 _ (setup powerOn) ?_⟩
  · have h : clockReads [⟨450, 300, 600, 600, 100, 5000, 5000⟩,
        ⟨0, 100, 600, 600, 100, 6000, 6000⟩, ⟨0, 100, 600, 600, 100, 11000, 11000⟩] powerOn =
        [5000, 5000, 6000, 11000, 11000] := by decide
    rw [h]
    simp
  · have h : trueClockReads [⟨0, 100, 600, 600, 100, 4294967196, 4294967196⟩,
        ⟨0, 100, 600, 600, 100, 4294971296, 4294971296⟩,
        ⟨0, 100, 600, 600, 100, 4294972196, 4294972196⟩] (setup powerOn) =
        [4294967196, 4294967196, 4294971296, 4294972196, 4294972196] := by decide
    rw [h]
    simp

/-- C5. Restoration invariant: after `handleAlert` returns from a Critical
alert of any type and message, from any state, the phase is Normal, the
indicator is pure green, the display shows "System Ready" / "Monitoring...",
and the last buzzer command issued is `noTone`. After `setup`, the phase is
Normal (hence not Alert) at the start and at the end of every iteration of
`loop`. -/
theorem C5_restoration_invariant (type : AlertType) (message : String) (millis : Nat)
    (s : State) (run : List LoopInput) (i : LoopInput) :
    (handleAlert type message AlertSeverity.Critical millis s).currentState
      = SystemState.Normal ∧
    (handleAlert type message AlertSeverity.Critical millis s).red = false ∧
    (handleAlert type message AlertSeverity.Critical millis s).green = true ∧
    (handleAlert type message AlertSeverity.Critical millis s).blue = false ∧
    (handleAlert type message AlertSeverity.Critical millis s).lcdRow0 = "System Ready" ∧
    (handleAlert type message AlertSeverity.Critical millis s).lcdRow1 = "Monitoring..." ∧
    lastBuzzerCommand (handleAlert type message AlertSeverity.Critical millis s).out
      = some (Event.noTone Pin.BUZZER_PIN) ∧
    lastBuzzerCommand (newEvents s (handleAlert type message AlertSeverity.Critical millis s))
      = some (Event.noTone Pin.BUZZER_PIN) ∧
    (setup s).currentState = SystemState.Normal ∧
    (runLoop run (setup s)).currentState = SystemState.Normal ∧
    (loop i (runLoop run (setup s))).currentState = SystemState.Normal ∧
    (runLoop run (setup s)).currentState ≠ SystemState.Alert ∧
    (loop i (runLoop run (setup s))).currentState ≠ SystemState.Alert := by
  have hout := handleAlert_out type message AlertSeverity.Critical millis s
  have hcalls : alertCalls type message AlertSeverity.Critical =
      alertRecord type message AlertSeverity.Critical ++ criticalActuation message := by
    simp [alertCalls]
  have hrun := runLoop_currentState run (setup s) (setup_currentState s)
  have hend := loop_currentState i _ hrun
  refine ⟨?_, ?_, ?_, ?_, ?_, ?_, ?_, ?_, setup_currentState s, hrun, hend, ?_, ?_⟩
  · rw [handleAlert_critical]
  · rw [handleAlert_critical]
  · rw [handleAlert_critical]
  · rw [handleAlert_critical]
  · rw [handleAlert_critical]
  · rw [handleAlert_critical]
  · rw [hout, hcalls, ← List.append_assoc]
    exact lastBuzzerCommand_criticalActuation message _
  · rw [newEvents_append s _ _ hout, hcalls]
    exact lastBuzzerCommand_criticalActuation message _
  · rw [hrun]; decide
  · rw [hend]; decide

/-- C6. Non-critical dispatch is log-only: for a Moderate or Normal severity,
from any state, `handleAlert` changes nothing but `lastAlertTime`, set to the
clock value, and the trace, extended by the eight serial calls of one record
(five lines): phase, display rows and indicator pins keep their values, and
among the calls made there is no buzzer command, no display command and no
`delay`. -/
theorem C6_non_critical_log_only (type : AlertType) (message : String)
    (severity : AlertSeverity) (millis : Nat) (s : State)
    (h : severity = AlertSeverity.Moderate ∨ severity = AlertSeverity.Normal) :
    handleAlert type message severity millis s =
      { s with
        lastAlertTime := millis,
        out := s.out ++
          [ Event.serialPrintln "----------------------------------------",
            Event.serialPrint "Sensor: ", Event.serialPrintln (getAlertTypeName type),
            Event.serialPrint "Alert: ", Event.serialPrintln message,
            Event.serialPrint "Severity: ", Event.serialPrintln (severityLabel severity),
            Event.serialPrintln "----------------------------------------" ] } ∧
    (handleAlert type message severity millis s).lastAlertTime = millis ∧
    (handleAlert type message severity millis s).currentState = s.currentState ∧
    (handleAlert type message severity millis s).lcdRow0 = s.lcdRow0 ∧
    (handleAlert type message severity millis s).lcdRow1 = s.lcdRow1 ∧
    (handleAlert type message severity millis s).red = s.red ∧
    (handleAlert type message severity millis s).green = s.green ∧
    (handleAlert type message severity millis s).blue = s.blue ∧
    (newEvents s (handleAlert type message severity millis s)).filter Event.isBuzzer = [] ∧
    (newEvents s (handleAlert type message severity millis s)).filter Event.isDisplay = [] ∧
    (newEvents s (handleAlert type message severity millis s)).filter Event.isDelay = [] ∧
    blockedMs (newEvents s (handleAlert type message severity millis s)) = 0 ∧
    (logLines (newEvents s (handleAlert type message severity millis s))).length = 5 := by
  have hne : severity ≠ AlertSeverity.Critical := by
    rcases h with h | h <;> rw [h] <;> decide
  have heq := handleAlert_not_critical type message severity millis s hne
  have hnew : newEvents s (handleAlert type message severity millis s) =
      alertRecord type message severity :=
    newEvents_append s _ _ (by rw [heq])
  refine ⟨?_, ?_, ?_, ?_, ?_, ?_, ?_, ?_, ?_, ?_, ?_, ?_, ?_⟩
  · rw [heq]; rfl
  · rw [heq]
  · rw [heq]
  · rw [heq]
  · rw [heq]
  · rw [heq]
  · rw [heq]
  · rw [heq]
  · rw [hnew]; simp [alertRecord, Event.isBuzzer]
  · rw [hnew]; simp [alertRecord, Event.isDisplay]
  · rw [hnew]; simp [alertRecord, Event.isDelay]
  · rw [hnew]; simp [alertRecord, blockedMs]
  · rw [hnew]; simp [alertRecord, logLines, logLinesFrom]

/-- Witness for C6: the Moderate sound alert, raised at 7000 ms in the state
left by `setup`, leaves the phase Normal and emits no `delay`. -/
theorem C6_non_critical_log_only_witness :
    (handleAlert AlertType.Sound "Sound Alert" AlertSeverity.Moderate 7000
      (setup powerOn)).currentState = (setup powerOn).currentState ∧
    blockedMs (newEvents (setup powerOn) (handleAlert AlertType.Sound "Sound Alert"
      AlertSeverity.Moderate 7000 (setup powerOn))) = 0 :=
  ⟨(C6_non_critical_log_only AlertType.Sound "Sound Alert" AlertSeverity.Moderate 7000
      (setup powerOn) (Or.inl rfl)).2.2.1,
   (C6_non_critical_log_only AlertType.Sound "Sound Alert" AlertSeverity.Moderate 7000
      (setup powerOn) (Or.inl rfl)).2.2.2.2.2.2.2.2.2.2.2.1⟩

/-- C7 as stated fails: for the fire alert raised in the state left by `setup`,
the beep sequence blocks for 1800 ms, not 3000 ms, and the whole dispatch for
3800 ms, not 5000 ms. -/
theorem C7_stated_timing_counterexample :
    blockedMs (newEvents (setup powerOn)
      (activateBuzzer AlertSeverity.Critical (setup powerOn))) ≠ 3000 ∧
    blockedMs (newEvents (setup powerOn) (handleAlert AlertType.Fire "FIRE DETECTED"
      AlertSeverity.Critical 5000 (setup powerOn))) ≠ 5000 := by
  decide

/-- C7, amended. Critical actuation timing: for every Critical alert the calls
of `activateBuzzer` are exactly three repetitions of (tone 2000 Hz for 200 ms,
`delay(300)`, tone 1500 Hz for 200 ms, `delay(300)`) followed by one `noTone`;
the only blocking calls are the `delay(300)` after each tone, so the sequence
blocks for 3 x (300 + 300) = 1800 ms. Within `handleAlert` the buzzer and
delay calls are this sequence, the `noTone`, and then `delay(2000)`: a
Critical dispatch blocks for 3800 ms in total. -/
theorem C7_critical_actuation_timing (type : AlertType) (message : String) (millis : Nat)
    (s : State) :
    newEvents s (activateBuzzer AlertSeverity.Critical s) =
      beepCycle ++ beepCycle ++ beepCycle ++ [Event.noTone Pin.BUZZER_PIN] ∧
    beepCycle = [ Event.tone Pin.BUZZER_PIN 2000 200, Event.delay 300,
                  Event.tone Pin.BUZZER_PIN 1500 200, Event.delay 300 ] ∧
    blockedMs beepCycle = 300 + 300 ∧
    blockedMs (newEvents s (activateBuzzer AlertSeverity.Critical s)) = 1800 ∧
    (newEvents s (handleAlert type message AlertSeverity.Critical millis s)).filter
        (fun e => e.isBuzzer || e.isDelay) =
      beepCycle ++ beepCycle ++ beepCycle ++
        [Event.noTone Pin.BUZZER_PIN, Event.delay 2000] ∧
    blockedMs (newEvents s (handleAlert type message AlertSeverity.Critical millis s))
      = 3800 := by
  have hbuz := newEvents_append s _ _ (activateBuzzer_out s)
  have hnew : newEvents s (handleAlert type message AlertSeverity.Critical millis s) =
      alertRecord type message AlertSeverity.Critical ++ criticalActuation message := by
    rw [newEvents_append s _ _ (handleAlert_out type message AlertSeverity.Critical millis s)]
    simp [alertCalls]
  refine ⟨hbuz, rfl, by decide, ?_, ?_, ?_⟩
  · rw [hbuz]; decide
  · rw [hnew, List.filter_append, criticalActuation_timed]
    simp [alertRecord, Event.isBuzzer, Event.isDelay]
  · rw [hnew, blockedMs_append, blockedMs_criticalActuation]
    simp [alertRecord, blockedMs]

/-- C8. Diagnostic record format: for every alert type, message and severity,
from any state, the serial output of `handleAlert` is exactly five lines: 40
hyphens, "Sensor: " and the sensor name, "Alert: " and the message,
"Severity: " and the label, 40 hyphens; with the labels CRITICAL, MODERATE,
NORMAL and the sensor names of `getAlertTypeName`, "Unknown Sensor" for
None. -/
theorem C8_diagnostic_record_format (type : AlertType) (message : String)
    (severity : AlertSeverity) (millis : Nat) (s : State) :
    logLines (newEvents s (handleAlert type message severity millis s)) =
      [ String.mk (List.replicate 40 '-'),
        "Sensor: " ++ getAlertTypeName type,
        "Alert: " ++ message,
        "Severity: " ++ severityLabel severity,
        String.mk (List.replicate 40 '-') ] ∧
    severityLabel AlertSeverity.Critical = "CRITICAL" ∧
    severityLabel AlertSeverity.Moderate = "MODERATE" ∧
    severityLabel AlertSeverity.Normal = "NORMAL" ∧
    getAlertTypeName AlertType.Sound = "Sound Sensor" ∧
    getAlertTypeName AlertType.Fire = "Fire Sensor" ∧
    getAlertTypeName AlertType.Water = "Water Sensor" ∧
    getAlertTypeName AlertType.Tamper = "Tamper Sensor" ∧
    getAlertTypeName AlertType.Proximity = "Proximity Sensor" ∧
    getAlertTypeName AlertType.None = "Unknown Sensor" := by
  have hdash : String.mk (List.replicate 40 '-') =
      "----------------------------------------" := by decide
  refine ⟨?_, rfl, rfl, rfl, rfl, rfl, rfl, rfl, rfl, rfl⟩
  have h := logLinesFrom_alertCalls type message severity []
  rw [List.append_nil] at h
  rw [newEvents_append s _ _ (handleAlert_out type message severity millis s), logLines, h,
    hdash]
  rfl

/-- C9. `lastAlertTime` never decreases: in a run that starts with
`lastAlertTime = 0` and whose successive clock values are non-decreasing, the
value after each iteration is at least the value before it. An iteration
whose evaluation yields no decision leaves it unchanged, one that raises an
alert sets it to the clock value read in `handleAlert`, and no other function
of the sketch writes it. -/
theorem C9_lastAlertTime_monotone (run : List LoopInput) (s : State)
    (hstart : s.lastAlertTime = 0)
    (hmono : List.Chain' (fun a b => a ≤ b) (clockReads run s)) :
    (∀ (pre : List LoopInput) (i : LoopInput) (post : List LoopInput),
      run = pre ++ i :: post →
        (runLoop pre s).lastAlertTime ≤ (loop i (runLoop pre s)).lastAlertTime) ∧
    (∀ (i : LoopInput) (t : State), loopDecision i t.lastAlertTime = none →
      (loop i t).lastAlertTime = t.lastAlertTime) ∧
    (∀ (i : LoopInput) (t : State), (loopDecision i t.lastAlertTime).isSome = true →
      (loop i t).lastAlertTime = i.millisAtAlert) ∧
    (∀ (t : State) (a b : String), (updateLCD a b t).lastAlertTime = t.lastAlertTime) ∧
    (∀ (t : State) (r g b : Bool), (setRGBColor r g b t).lastAlertTime = t.lastAlertTime) ∧
    (∀ (t : State) (v : AlertSeverity), (activateBuzzer v t).lastAlertTime = t.lastAlertTime) ∧
    (∀ (t : State) (a b : String) (v : AlertSeverity),
      (sendSerialData a b v t).lastAlertTime = t.lastAlertTime) ∧
    (∀ (t : State) (cm : Nat), (readUltrasonicDistance cm t).2.lastAlertTime = t.lastAlertTime) ∧
    (∀ (t : State) (ms : Nat), (delay ms t).lastAlertTime = t.lastAlertTime) ∧
    (∀ t : State, (setup t).lastAlertTime = t.lastAlertTime) ∧
    (setup powerOn).lastAlertTime = 0 := by
  refine ⟨?_, ?_, ?_, ?_, ?_, ?_, ?_, ?_, ?_, setup_lastAlertTime, ?_⟩
  · intro pre i post hrun
    subst hrun
    apply runLoop_lastAlertTime_le pre s i post (List.chain'_iff_pairwise.mp hmono)
    intro r _
    rw [hstart]
    exact Nat.zero_le r
  · intro i t h
    rw [loop_lastAlertTime, h]
  · intro i t h
    rw [loop_lastAlertTime]
    cases hd : loopDecision i t.lastAlertTime with
    | none => rw [hd] at h; simp at h
    | some d => rfl
  · intro t a b
    simp [updateLCD, lcdClear, lcdPrintAt, emit]
    split_ifs <;> rfl
  · intro t r g b
    simp [setRGBColor, digitalWrite, emit]
  · intro t v
    cases v <;> simp [activateBuzzer, beepPattern, tone, delay, noTone, emit]
  · intro t a b v
    simp [sendSerialData, emit]
  · intro t cm
    rw [readUltrasonicDistance_eq]
  · intro t ms
    rfl
  · rw [setup_lastAlertTime]; rfl

/-- Witness for C9: after `setup`, an idle iteration at 100 ms, a fire alert
checked at 5000 ms and recorded at 5001 ms, and an idle iteration at 9000 ms:
the second iteration does not decrease `lastAlertTime`. -/
theorem C9_lastAlertTime_monotone_witness :
    (runLoop [⟨0, 300, 600, 600, 100, 100, 100⟩] (setup powerOn)).lastAlertTime ≤
      (loop ⟨0, 100, 600, 600, 100, 5000, 5001⟩
        (runLoop [⟨0, 300, 600, 600, 100, 100, 100⟩] (setup powerOn))).lastAlertTime := by
  have h : clockReads [⟨0, 300, 600, 600, 100, 100, 100⟩, ⟨0, 100, 600, 600, 100, 5000, 5001⟩,
      ⟨0, 100, 600, 600, 100, 9000, 9000⟩] (setup powerOn) = [100, 5000, 5001, 9000] := by
    decide
  exact (C9_lastAlertTime_monotone
    [⟨0, 300, 600, 600, 100, 100, 100⟩, ⟨0, 100, 600, 600, 100, 5000, 5001⟩,
      ⟨0, 100, 600, 600, 100, 9000, 9000⟩] (setup powerOn) (by decide)
    (by rw [h]; simp)).1 [⟨0, 300, 600, 600, 100, 100, 100⟩]
      ⟨0, 100, 600, 600, 100, 5000, 5001⟩ [⟨0, 100, 600, 600, 100, 9000, 9000⟩] rfl

/-- C10. The cooldown test survives clock rollover: for 32-bit values
`lastAlertTime` and true elapsed time `d < 2^32`, when the clock reads
`(lastAlertTime + d) mod 2^32` the gate condition of line 111 holds exactly
when `d ≥ 5000`; so the evaluation yields nothing when `d < 5000` and is the
first-match-wins decision when `d ≥ 5000`, wrap or no wrap. -/
theorem C10_cooldown_survives_rollover (lastAlertTime d : Nat)
    (hlast : lastAlertTime < 4294967296) (hd : d < 4294967296) :
    (ulSub ((lastAlertTime + d) % 4294967296) lastAlertTime ≥ alertCooldown ↔ d ≥ 5000) ∧
    (∀ i : LoopInput, i.millisAtCheck = (lastAlertTime + d) % 4294967296 →
      (d < 5000 → loopDecision i lastAlertTime = none) ∧
      (d ≥ 5000 → loopDecision i lastAlertTime = referenceDecision i.snapshot)) := by
  have hgate : ulSub ((lastAlertTime + d) % 4294967296) lastAlertTime = d := by
    simp only [ulSub, ULONG_SPAN]
    omega
  refine ⟨?_, ?_⟩
  · rw [hgate]
    simp only [alertCooldown]
  · intro i hi
    refine ⟨fun hlt => ?_, fun hge => ?_⟩
    · apply loopDecision_none_of_cooldown
      rw [hi, hgate]
      exact hlt
    · apply loopDecision_eq_reference
      rw [hi, hgate]
      exact hge

/-- Witness for C10: an alert recorded 296 ms before the clock wraps; 6000 ms
later the clock reads 5704 and the gate is open, 4000 ms later it reads 3704
and the gate is closed. -/
theorem C10_cooldown_survives_rollover_witness :
    ulSub 5704 4294967000 ≥ alertCooldown ∧ ¬ ulSub 3704 4294967000 ≥ alertCooldown :=
  ⟨(C10_cooldown_survives_rollover 4294967000 6000 (by decide) (by decide)).1.mpr (by decide),
   fun h => absurd ((C10_cooldown_survives_rollover 4294967000 4000 (by decide)
     (by decide)).1.mp h) (by decide)⟩

end SmartHome
